import Mathlib

/-!
Crown work order lifecycle and detection engine: a shallow embedding.

This file embeds the core of the DentalAIAgent repository in Lean 4 and
proves (or refutes) the properties its specification states about it.

Embedded source files:
* `src/types/crownWorkOrder.ts` — data model: statuses, records, the four
  crown procedure codes, helper predicates.
* `src/database/workOrderQueries.ts` (`WorkOrderQueries`) — the store
  adapter: create / get / list / update / updateStatus / delete / stats.
  Supabase is modelled as an in-memory list of rows; `new Date()` becomes an
  explicit `now : Nat` argument; every fallible operation returns an
  `Option` as the `{ data, error }` envelope does.
* `src/routes/crownWorkOrders.ts` (`createCrownWorkOrderRoutes`) — the
  `POST /work-orders` handler with its validation, crown detection and
  duplicate-procedure conflict check.
* `src/services/crownDetection.ts` (`CrownDetectionService`) — procedure
  classification, shade extraction (the four regex rules are implemented
  character by character with JavaScript `String.match` leftmost semantics),
  tooth-number extraction (with a model of JavaScript `parseInt`), priority
  determination.
* `src/services/aiCommands.ts` (`AICommandExecutor`) — command parsing
  (the Anthropic reply is a parameter: either an API error, a non-text
  block, unparseable JSON, or a parsed JSON object) and the
  confidence-gated dispatch, instrumented with the list of store calls the
  dispatch performs.
-/

namespace DentalAI

/-! ## Data model (`src/types/crownWorkOrder.ts`) -/

/-- The `WorkOrderStatus` of `crownWorkOrder.ts`: the eleven named statuses. -/
inductive WorkOrderStatus
  | pending
  | scanned
  | designed
  | milling
  | sintering
  | finishing
  | qc
  | ready
  | seated
  | cancelled
  | on_hold
deriving DecidableEq, Repr

/-- The string stored in the `status` column for each status. -/
def statusString : WorkOrderStatus → String
  | .pending => "pending"
  | .scanned => "scanned"
  | .designed => "designed"
  | .milling => "milling"
  | .sintering => "sintering"
  | .finishing => "finishing"
  | .qc => "qc"
  | .ready => "ready"
  | .seated => "seated"
  | .cancelled => "cancelled"
  | .on_hold => "on_hold"

/-- Priority values (`'routine' | 'urgent' | 'asap'`). -/
inductive Priority
  | routine
  | urgent
  | asap
deriving DecidableEq, Repr

/-- The `StatusHistoryEntry` of `crownWorkOrder.ts`:
`{ status, timestamp, updatedBy, notes? }`. Timestamps are epoch
milliseconds as `Nat`. -/
structure StatusHistoryEntry where
  status : WorkOrderStatus
  timestamp : Nat
  updatedBy : String
  notes : Option String
deriving DecidableEq, Repr

/-- A persisted work order row (`CrownWorkOrderRecord` of
`crownWorkOrder.ts`, restricted to the fields the specified behaviour
reads or writes; `assignedTo`, `priority` and `lab_notes` live inside the
`lab_slip_data` JSONB in the schema).

`statusHistory` embeds the data model's `statusHistory :
StatusHistoryEntry[]` field as it is maintained by the code: the
`lab_slips` schema (`migrations/add_crown_work_order_fields.sql`) has no
history column, `createWorkOrder` supplies no entries, and the
record-to-`CrownWorkOrder` conversion in the PDF route fills it with `[]`;
carrying the field in the state lets the history claims be stated against
what the code actually does to it. -/
structure CrownWorkOrderRecord where
  id : Nat
  lab_id : Option String
  opendental_patient_id : Int
  opendental_procedure_id : Int
  patient_name : String
  procedure_code : String
  tooth_number : String
  shade : String
  assignedTo : String
  priority : Priority
  status : WorkOrderStatus
  lab_notes : Option String
  pdf_url : Option String
  pdf_storage_path : Option String
  created_at : Nat
  updated_at : Nat
  completed_at : Option Nat
  statusHistory : List StatusHistoryEntry
deriving DecidableEq, Repr

/-! ## Store adapter (`src/database/workOrderQueries.ts`) -/

/-- The persistent store: the `lab_slips` table as a list of rows plus the
id the next insert receives. -/
structure WorkOrderStore where
  rows : List CrownWorkOrderRecord
  nextId : Nat
deriving DecidableEq, Repr

/-- The store with no rows. -/
def emptyStore : WorkOrderStore := { rows := [], nextId := 0 }

/-- The `CreateWorkOrderParams` of `workOrderQueries.ts` (fields the embedded
record keeps). `status` is optional; `createWorkOrder` defaults it to
`'pending'` (`params.status || 'pending'`). -/
structure CreateWorkOrderParams where
  openDentalPatientId : Int
  openDentalProcedureId : Int
  patientName : String
  procedureCode : String
  toothNumber : String
  shade : String
  assignedTo : String
  priority : Priority
  specialInstructions : Option String := none
  dueDate : Option Nat := none
  status : Option WorkOrderStatus := none

/-- The `WorkOrderQueries.createWorkOrder`: inserts a fresh row.  The insert
provides no `lab_id` (the row is internal), no `completed_at`, and no
status-history entries; `created_at = updated_at = now`. -/
def createWorkOrder (now : Nat) (p : CreateWorkOrderParams) (s : WorkOrderStore) :
    WorkOrderStore × Option CrownWorkOrderRecord :=
  let r : CrownWorkOrderRecord :=
    { id := s.nextId
      lab_id := none
      opendental_patient_id := p.openDentalPatientId
      opendental_procedure_id := p.openDentalProcedureId
      patient_name := p.patientName
      procedure_code := p.procedureCode
      tooth_number := p.toothNumber
      shade := p.shade
      assignedTo := p.assignedTo
      priority := p.priority
      status := p.status.getD .pending
      lab_notes := none
      pdf_url := none
      pdf_storage_path := none
      created_at := now
      updated_at := now
      completed_at := none
      statusHistory := [] }
  ({ rows := r :: s.rows, nextId := s.nextId + 1 }, some r)

/-- The `WorkOrderQueries.getWorkOrderById`: `.eq('id', id).single()`;
`none` models the `{ data: null, error }` envelope. -/
def getWorkOrderById (id : Nat) (s : WorkOrderStore) : Option CrownWorkOrderRecord :=
  s.rows.find? (fun r => r.id == id)

/-- Rows ordered by `created_at` descending
(`.order('created_at', { ascending: false })`). -/
def sortByCreatedDesc (rows : List CrownWorkOrderRecord) : List CrownWorkOrderRecord :=
  rows.mergeSort (fun a b => b.created_at ≤ a.created_at)

/-- The `WorkOrderQueries.getWorkOrderByProcedureId`: newest row whose
`opendental_procedure_id` matches, `none` when there is none (the
`PGRST116` not-found case is not an error there). -/
def getWorkOrderByProcedureId (procedureId : Int) (s : WorkOrderStore) :
    Option CrownWorkOrderRecord :=
  (sortByCreatedDesc (s.rows.filter
    (fun r => r.opendental_procedure_id == procedureId))).head?

/-- The `WorkOrderQueries.workOrderExistsForProcedure`. -/
def workOrderExistsForProcedure (procedureId : Int) (s : WorkOrderStore) : Bool :=
  (getWorkOrderByProcedureId procedureId s).isSome

/-- A status filter is a single status or a set of statuses
(`status?: WorkOrderStatus | WorkOrderStatus[]`). -/
inductive StatusFilter
  | one (st : WorkOrderStatus)
  | many (sts : List WorkOrderStatus)
deriving DecidableEq, Repr

/-- The `WorkOrderFilters` of `workOrderQueries.ts`. -/
structure WorkOrderFilters where
  status : Option StatusFilter := none
  assignedTo : Option String := none
  patientId : Option Int := none
  procedureId : Option Int := none
  dateFrom : Option Nat := none
  dateTo : Option Nat := none
  priority : Option Priority := none
deriving DecidableEq, Repr

/-- One row against the filter clauses `listWorkOrders` chains. -/
def matchesFilters (f : WorkOrderFilters) (r : CrownWorkOrderRecord) : Bool :=
  (match f.status with
   | none => true
   | some (.one st) => r.status == st
   | some (.many sts) => sts.contains r.status) &&
  (match f.assignedTo with
   | none => true
   | some a => r.assignedTo == a) &&
  (match f.patientId with
   | none => true
   | some p => r.opendental_patient_id == p) &&
  (match f.procedureId with
   | none => true
   | some p => r.opendental_procedure_id == p) &&
  (match f.dateFrom with
   | none => true
   | some d => decide (d ≤ r.created_at)) &&
  (match f.dateTo with
   | none => true
   | some d => decide (r.created_at ≤ d)) &&
  (match f.priority with
   | none => true
   | some p => r.priority == p)

/-- The `WorkOrderQueries.listWorkOrders`: internal rows only
(`.is('lab_id', null)`), then the filters, ordered newest-created-first,
capped at `limit`. -/
def listWorkOrders (f : WorkOrderFilters) (limit : Nat) (s : WorkOrderStore) :
    List CrownWorkOrderRecord :=
  (sortByCreatedDesc
    ((s.rows.filter (fun r => r.lab_id.isNone)).filter (matchesFilters f))).take limit

/-- The `UpdateWorkOrderParams` of `workOrderQueries.ts`. -/
structure UpdateWorkOrderParams where
  id : Nat
  status : Option WorkOrderStatus := none
  labNotes : Option String := none
  pdfUrl : Option String := none
  pdfStoragePath : Option String := none
  completedAt : Option Nat := none

/-- The column updates `updateWorkOrder` builds: `updated_at = now`
always; `status`, `pdf_url`, `pdf_storage_path`, `completed_at` only when
the corresponding parameter is defined; `labNotes` is merged into the
JSONB.  No field of the status history is touched. -/
def applyUpdates (now : Nat) (p : UpdateWorkOrderParams) (r : CrownWorkOrderRecord) :
    CrownWorkOrderRecord :=
  { r with
    updated_at := now
    status := p.status.getD r.status
    pdf_url := match p.pdfUrl with | some u => some u | none => r.pdf_url
    pdf_storage_path :=
      match p.pdfStoragePath with | some u => some u | none => r.pdf_storage_path
    completed_at := match p.completedAt with | some t => some t | none => r.completed_at
    lab_notes := match p.labNotes with | some n => some n | none => r.lab_notes }

/-- The `WorkOrderQueries.updateWorkOrder`: `.update(updates).eq('id',
id).select().single()` — fails (`none`) when the id resolves to no row,
otherwise applies the updates and returns the updated row. -/
def updateWorkOrder (now : Nat) (p : UpdateWorkOrderParams) (s : WorkOrderStore) :
    WorkOrderStore × Option CrownWorkOrderRecord :=
  match s.rows.find? (fun r => r.id == p.id) with
  | none => (s, none)
  | some r =>
      let r' := applyUpdates now p r
      ({ rows := s.rows.map (fun q => if q.id == p.id then r' else q)
         nextId := s.nextId }, some r')

/-- The `WorkOrderQueries.updateWorkOrderStatus`: always sets `status`; copies
`notes` into `labNotes` only when truthy (`if (notes)` — the empty string
is falsy in JavaScript); stamps `completedAt = now` exactly when the new
status is `'seated'`; then delegates to `updateWorkOrder`. -/
def updateWorkOrderStatus (now : Nat) (id : Nat) (status : WorkOrderStatus)
    (notes : Option String) (s : WorkOrderStore) :
    WorkOrderStore × Option CrownWorkOrderRecord :=
  updateWorkOrder now
    { id := id
      status := some status
      labNotes := match notes with
        | some n => if n = "" then none else some n
        | none => none
      completedAt := if status = .seated then some now else none } s

/-- The `WorkOrderQueries.deleteWorkOrder`: removes the rows with the id
(Supabase delete succeeds whether or not a row matched). -/
def deleteWorkOrder (id : Nat) (s : WorkOrderStore) : WorkOrderStore × Bool :=
  ({ rows := s.rows.filter (fun r => r.id != id), nextId := s.nextId }, true)

/-- The result shape of `getWorkOrderStats`. -/
structure WorkOrderStats where
  total : Nat
  pending : Nat
  inProgress : Nat
  ready : Nat
  completed : Nat
deriving DecidableEq, Repr

/-- The six statuses `getWorkOrderStats` and `getInProgressWorkOrders`
count as in progress. -/
def inProgressStatuses : List WorkOrderStatus :=
  [.scanned, .designed, .milling, .sintering, .finishing, .qc]

/-- The `WorkOrderQueries.getWorkOrderStats`: fetches
`listWorkOrders({}, 1000)` and counts the buckets over that list. -/
def getWorkOrderStats (s : WorkOrderStore) : WorkOrderStats :=
  let all := listWorkOrders {} 1000 s
  { total := all.length
    pending := (all.filter (fun wo => wo.status == .pending)).length
    inProgress := (all.filter (fun wo => inProgressStatuses.contains wo.status)).length
    ready := (all.filter (fun wo => wo.status == .ready)).length
    completed := (all.filter (fun wo => wo.status == .seated)).length }

/-! ## Procedure classifier (`src/services/crownDetection.ts` and the
crown-code helpers of `crownWorkOrder.ts`) -/

/-- JavaScript `s.toLowerCase()` (ASCII range, character by
character). -/
def jsToLower (s : String) : String := String.mk (s.data.map Char.toLower)

/-- JavaScript `s.toUpperCase()` (ASCII range, character by
character). -/
def jsToUpper (s : String) : String := String.mk (s.data.map Char.toUpper)

/-- JavaScript `s.trim()`: whitespace stripped from both ends. -/
def jsTrim (s : String) : String :=
  String.mk ((s.data.dropWhile Char.isWhitespace).reverse.dropWhile
    Char.isWhitespace |>.reverse)

/-- The `Object.keys(CROWN_PROCEDURE_CODES)`: the four known crown procedure
codes. -/
def crownProcedureCodes : List String := ["D2740", "D2750", "D2751", "D2752"]

/-- The `CROWN_PROCEDURE_CODES` as a code-to-description table. -/
def crownCodeDescriptions : List (String × String) :=
  [("D2740", "Crown - porcelain/ceramic substrate"),
   ("D2750", "Crown - porcelain fused to high noble metal"),
   ("D2751", "Crown - porcelain fused to predominantly base metal"),
   ("D2752", "Crown - porcelain fused to noble metal")]

/-- The `isCrownProcedure` of `crownWorkOrder.ts`:
`code in CROWN_PROCEDURE_CODES`. -/
def isCrownProcedure (code : String) : Bool :=
  crownProcedureCodes.contains code

/-- The `getCrownDescription` of `crownWorkOrder.ts`. -/
def getCrownDescription (code : String) : String :=
  if isCrownProcedure code then
    ((crownCodeDescriptions.lookup code).getD "Unknown procedure")
  else "Unknown procedure"

/-- The `materialMap` of
`CrownDetectionService.recommendMaterialForCode`. -/
def materialMap : List (String × String) :=
  [("D2740", "Zirconia"),
   ("D2750", "Porcelain Fused to Metal"),
   ("D2751", "Porcelain Fused to Metal"),
   ("D2752", "Porcelain Fused to Metal")]

/-- The `recommendMaterialForCode`: total lookup in `materialMap` (in the
source the argument's type `CrownProcedureCode` already restricts it to
the four keys). -/
def recommendMaterialForCode (code : String) : String :=
  (materialMap.lookup code).getD "Zirconia"

/-- The `ProcedureDetectionConfig` of `crownDetection.ts`. -/
structure ProcedureDetectionConfig where
  monitoredCodes : List String
  autoCreateWorkOrder : Bool
  requiresApproval : Bool
  defaultPriority : Priority

/-- The `DEFAULT_DETECTION_CONFIG`: monitors the four crown codes, default
priority `'routine'`. -/
def DEFAULT_DETECTION_CONFIG : ProcedureDetectionConfig :=
  { monitoredCodes := crownProcedureCodes
    autoCreateWorkOrder := true
    requiresApproval := false
    defaultPriority := .routine }

/-- The `DetectionResult` of `crownDetection.ts`; `confidence` is a
JavaScript number, embedded as a rational. -/
structure DetectionResult where
  isCrown : Bool
  procedureCode : Option String
  description : Option String
  confidence : ℚ
  recommendedMaterial : Option String
  notes : Option String
deriving DecidableEq, Repr

/-- The `CrownDetectionService.detectCrownProcedure` under a configuration:
normalizes with `.trim().toUpperCase()`, is a crown exactly when the
normalized code is monitored and a known crown code, and then carries
confidence 1 and the table material; anything else yields
`isCrown = false, confidence = 0` and no material. -/
def detectCrownProcedureWith (config : ProcedureDetectionConfig)
    (procedureCode : String) : DetectionResult :=
  let normalizedCode := jsToUpper (jsTrim procedureCode)
  if config.monitoredCodes.contains normalizedCode && isCrownProcedure normalizedCode then
    { isCrown := true
      procedureCode := some normalizedCode
      description := some (getCrownDescription normalizedCode)
      confidence := 1
      recommendedMaterial := some (recommendMaterialForCode normalizedCode)
      notes := some ("Detected " ++ normalizedCode ++ " - " ++
        getCrownDescription normalizedCode) }
  else
    { isCrown := false
      procedureCode := none
      description := none
      confidence := 0
      recommendedMaterial := none
      notes := some ("Procedure code " ++ procedureCode ++
        " is not a monitored crown procedure") }

/-- The `detectCrownProcedure` on the singleton service instance, which is
constructed with `DEFAULT_DETECTION_CONFIG`. -/
def detectCrownProcedure (procedureCode : String) : DetectionResult :=
  detectCrownProcedureWith DEFAULT_DETECTION_CONFIG procedureCode

/-! ### Tooth-number extraction and a model of JavaScript `parseInt` -/

/-- Value of a hexadecimal digit. -/
def hexDigitVal (c : Char) : Option Nat :=
  if c.isDigit then some (c.toNat - '0'.toNat)
  else if 'a' ≤ c ∧ c ≤ 'f' then some (c.toNat - 'a'.toNat + 10)
  else if 'A' ≤ c ∧ c ≤ 'F' then some (c.toNat - 'A'.toNat + 10)
  else none

/-- A digit of the given radix (10 or 16). -/
def radixDigitVal (radix : Nat) (c : Char) : Option Nat :=
  match hexDigitVal c with
  | some v => if v < radix then some v else none
  | none => none

/-- The longest digit prefix, as a value (`none` when there is no leading
digit, which `parseInt` turns into `NaN`). -/
def parseDigits (radix : Nat) : List Char → Option Nat → Option Nat
  | [], acc => acc
  | c :: rest, acc =>
      match radixDigitVal radix c with
      | some v => parseDigits radix rest (some ((acc.getD 0) * radix + v))
      | none => acc

/-- JavaScript `parseInt(s)` with no radix argument: skip leading
whitespace, an optional sign, detect a `0x`/`0X` prefix (radix 16, else
10), read the longest digit prefix; no digit means `NaN` (`none`). -/
def jsParseInt (s : String) : Option Int :=
  let cs := s.data.dropWhile Char.isWhitespace
  let (neg, cs) :=
    match cs with
    | '-' :: rest => (true, rest)
    | '+' :: rest => (false, rest)
    | rest => (false, rest)
  let (radix, cs) :=
    match cs with
    | '0' :: 'x' :: rest => (16, rest)
    | '0' :: 'X' :: rest => (16, rest)
    | rest => (10, rest)
  match parseDigits radix cs none with
  | some n => some (if neg then -(n : Int) else (n : Int))
  | none => none

/-- A JavaScript `String(x)` view of the `string | number` argument of
`extractToothNumber`. -/
def toothInputString : String ⊕ Int → String
  | .inl s => s
  | .inr n => toString n

/-- The test `/^[A-T]$/i`: exactly one character, a letter `A`–`T` in
either case. -/
def isPrimaryToothLetter (s : String) : Bool :=
  match s.data with
  | [c] => ('A' ≤ c && c ≤ 'T') || ('a' ≤ c && c ≤ 't')
  | _ => false

/-- The `CrownDetectionService.extractToothNumber`: trims
`String(toothNum)`; if `parseInt` of it lies in `1..32` returns the
trimmed string as is; else if it is a single `A`–`T` letter returns it
uppercased; otherwise returns the trimmed string unchanged.  (The
`num >= 1 && num <= 32` comparisons are false on `NaN`.) -/
def extractToothNumber (toothNum : String ⊕ Int) : String :=
  let cleaned := jsTrim (toothInputString toothNum)
  let inRange := match jsParseInt cleaned with
    | some n => decide (1 ≤ n ∧ n ≤ 32)
    | none => false
  if inRange then cleaned
  else if isPrimaryToothLetter cleaned then jsToUpper cleaned
  else cleaned

/-! ### Priority determination -/

/-- The `str.isPrefixOf`-style check written out: does `needle` lead
`chars`? -/
def leadsWith : List Char → List Char → Bool
  | [], _ => true
  | _ :: _, [] => false
  | a :: as, b :: bs => a == b && leadsWith as bs

/-- JavaScript `hay.includes(needle)`. -/
def strContains (hay needle : String) : Bool :=
  go hay.data
where
  go : List Char → Bool
    | [] => leadsWith needle.data []
    | c :: rest => leadsWith needle.data (c :: rest) || go rest

/-- The `urgentKeywords` list of `determinePriority`. -/
def urgentKeywords : List String := ["urgent", "asap", "rush", "emergency", "same day"]

/-- The `Math.ceil(a / b)` for integers, `b > 0`. -/
def jsCeilDiv (a b : Int) : Int := -((-a).fdiv b)

/-- Milliseconds in a day (`1000 * 60 * 60 * 24`). -/
def msPerDay : Int := 86400000

/-- The `CrownDetectionService.determinePriority`: a truthy `notes` containing
an urgent keyword (lowercased scan) short-circuits to `'asap'`; otherwise
with an appointment date, `daysUntilAppointment = ceil((appointment -
now) / msPerDay)` decides — `≤ 1` gives `'asap'`, `≤ 3` gives
`'urgent'`, else the configured default; no appointment date falls
through to the configured default.  (`procedureDate` is accepted and
unused, as in the source.) -/
def determinePriority (config : ProcedureDetectionConfig) (now : Int)
    (procedureDate : Int) (appointmentDate : Option Int) (notes : Option String) :
    Priority :=
  let _ := procedureDate
  let urgentHit := match notes with
    | some n => (n != "") && urgentKeywords.any (fun k => strContains (jsToLower n) k)
    | none => false
  if urgentHit then .asap
  else
    match appointmentDate with
    | some appt =>
        let daysUntilAppointment := jsCeilDiv (appt - now) msPerDay
        if daysUntilAppointment ≤ 1 then .asap
        else if daysUntilAppointment ≤ 3 then .urgent
        else config.defaultPriority
    | none => config.defaultPriority

/-! ### Shade extraction (`CrownDetectionService.extractShade`)

The four regex rules of the source,

1. `/shade[:\s]+([A-D]\d{1,2})/i`  (label-prefixed)
2. `/([A-D]\d{1,2})\s+shade/i`     (label-suffixed)
3. `/color[:\s]+([A-D]\d{1,2})/i`  (color-prefixed)
4. `/\b([A-D]\d{1,2})\b/`          (bare token, case-sensitive)

are implemented character by character with `String.prototype.match`
semantics: the leftmost position at which the pattern matches wins, the
`{1,2}` quantifier is greedy and backtracks, and `\b` is the JavaScript
word boundary against `[A-Za-z0-9_]`. -/

/-- JavaScript word character (`\w`): `[A-Za-z0-9_]`. -/
def jsWordChar (c : Char) : Bool := c.isAlphanum || c == '_'

/-- A shade letter `[A-D]` matched case-insensitively (patterns 1–3 carry
the `i` flag). -/
def isShadeLetterCI (c : Char) : Bool :=
  ('A' ≤ c && c ≤ 'D') || ('a' ≤ c && c ≤ 'd')

/-- A shade letter `[A-D]` matched case-sensitively (pattern 4 has no
flag). -/
def isShadeLetterCS (c : Char) : Bool := 'A' ≤ c && c ≤ 'D'

/-- The class `[:\s]`. -/
def isSepChar (c : Char) : Bool := c == ':' || c.isWhitespace

/-- Case-insensitive literal: consume `lit` (given lowercased) from the
front of `cs`, returning the remainder. -/
def dropLiteralCI : List Char → List Char → Option (List Char)
  | [], cs => some cs
  | _ :: _, [] => none
  | l :: ls, c :: cs => if c.toLower == l then dropLiteralCI ls cs else none

/-- After the shade letter: `\d{1,2}` greedily, with nothing following in
the pattern — so one digit is required and a second is taken when
present. -/
def takeShadeDigits (c : Char) : List Char → Option String
  | d1 :: d2 :: _ =>
      if d1.isDigit then
        if d2.isDigit then some (String.mk [c, d1, d2]) else some (String.mk [c, d1])
      else none
  | [d1] => if d1.isDigit then some (String.mk [c, d1]) else none
  | [] => none

/-- Patterns 1 and 3 at one position: the case-insensitive label
(`shade` / `color`), then `[:\s]+`, then the capture `[A-D]\d{1,2}`.
`[:\s]` and `[A-D]` are disjoint classes, so the greedy `+` needs no
backtracking. -/
def matchLabeledAt (lit : List Char) (cs : List Char) : Option String :=
  match dropLiteralCI lit cs with
  | none => none
  | some rest =>
      let seps := rest.takeWhile isSepChar
      if seps.isEmpty then none
      else
        match rest.drop seps.length with
        | c :: ds => if isShadeLetterCI c then takeShadeDigits c ds else none
        | [] => none

/-- Pattern 2 at one position: the capture `[A-D]\d{1,2}`, then `\s+`,
then the case-insensitive literal `shade`.  The greedy `\d{1,2}` tries
two digits first and backtracks to one. -/
def matchSuffixedAt : List Char → Option String
  | c :: d1 :: rest =>
      if isShadeLetterCI c && d1.isDigit then
        let tail1 := fun (xs : List Char) =>
          let ws := xs.takeWhile Char.isWhitespace
          !ws.isEmpty && (dropLiteralCI "shade".data (xs.drop ws.length)).isSome
        match rest with
        | d2 :: rest2 =>
            if d2.isDigit && tail1 rest2 then some (String.mk [c, d1, d2])
            else if tail1 rest then some (String.mk [c, d1])
            else none
        | [] => none
      else none
  | _ => none

/-- End word boundary: the next character, if any, is not a word
character. -/
def boundaryAfterOk : List Char → Bool
  | [] => true
  | c :: _ => !jsWordChar c

/-- Pattern 4 at one position, `prevOk` saying the position sits at a
start word boundary: capture `[A-D]\d{1,2}` (case-sensitive) with a word
boundary after; two digits are tried first, but a failed end boundary
after two digits cannot fall back to one digit, because the second digit
itself is a word character. -/
def matchBareAt (prevOk : Bool) : List Char → Option String
  | c :: d1 :: d2 :: rest =>
      if prevOk && isShadeLetterCS c && d1.isDigit then
        if d2.isDigit then
          if boundaryAfterOk rest then some (String.mk [c, d1, d2]) else none
        else if !jsWordChar d2 then some (String.mk [c, d1])
        else none
      else none
  | [c, d1] =>
      if prevOk && isShadeLetterCS c && d1.isDigit then some (String.mk [c, d1])
      else none
  | _ => none

/-- Leftmost-position scan for a positional matcher. -/
def firstMatchPos (matchAt : List Char → Option String) : List Char → Option String
  | [] => none
  | c :: rest =>
      match matchAt (c :: rest) with
      | some m => some m
      | none => firstMatchPos matchAt rest

/-- Leftmost-position scan for pattern 4, threading the start-boundary
state (the position after character `c` has a start boundary exactly when
`c` is not a word character). -/
def firstMatchBare (cs : List Char) : Option String := go true cs
where
  go (prevOk : Bool) : List Char → Option String
    | [] => none
    | c :: rest =>
        match matchBareAt prevOk (c :: rest) with
        | some m => some m
        | none => go (!jsWordChar c) rest

/-- Rule 1: `notes.match(/shade[:\s]+([A-D]\d{1,2})/i)`, capture 1. -/
def matchShadeRule1 (notes : String) : Option String :=
  firstMatchPos (matchLabeledAt "shade".data) notes.data

/-- Rule 2: `notes.match(/([A-D]\d{1,2})\s+shade/i)`, capture 1. -/
def matchShadeRule2 (notes : String) : Option String :=
  firstMatchPos matchSuffixedAt notes.data

/-- Rule 3: `notes.match(/color[:\s]+([A-D]\d{1,2})/i)`, capture 1. -/
def matchShadeRule3 (notes : String) : Option String :=
  firstMatchPos (matchLabeledAt "color".data) notes.data

/-- Rule 4: `notes.match(/\b([A-D]\d{1,2})\b/)`, capture 1. -/
def matchShadeRule4 (notes : String) : Option String :=
  firstMatchBare notes.data

/-- The `CrownDetectionService.extractShade`: the `for` loop over
`shadePatterns` — the first rule (in the fixed order 1, 2, 3, 4) whose
match succeeds returns its capture uppercased; otherwise the default
shade `'A2'`. -/
def extractShade (notes : String) : String :=
  match matchShadeRule1 notes with
  | some m => jsToUpper m
  | none =>
    match matchShadeRule2 notes with
    | some m => jsToUpper m
    | none =>
      match matchShadeRule3 notes with
      | some m => jsToUpper m
      | none =>
        match matchShadeRule4 notes with
        | some m => jsToUpper m
        | none => "A2"

/-! ## Crown work order routes (`createCrownWorkOrderRoutes`,
`POST /work-orders`) -/

/-- The `patient` object of the request body (fields the handler uses). -/
structure PatientPayload where
  name : String
  dateOfBirth : Nat

/-- The `procedure` object of the request body (fields the handler
uses). -/
structure ProcedurePayload where
  code : String
  description : String
  toothNumber : String
  shade : Option String := none

/-- The body of `POST /work-orders`.  Fields absent from the request are
`none`; `assignedTo` and `priority` carry the handler's destructuring
defaults. -/
structure CreateRequest where
  openDentalPatientId : Option Int := none
  openDentalProcedureId : Option Int := none
  patient : Option PatientPayload := none
  procedure : Option ProcedurePayload := none
  crownSpecsShade : Option String := none
  specialInstructions : Option String := none
  assignedTo : String := "Lab Tech"
  priority : Priority := .routine
  dueDate : Option Nat := none

/-- JavaScript truthiness of the numeric ids in the handler's
`if (!openDentalPatientId || ...)` check: present and not `0`. -/
def idTruthy : Option Int → Bool
  | some n => n != 0
  | none => false

/-- The `POST /work-orders` handler: returns the next store state, the
HTTP status code, and the created record on 201.
Order of checks, as in the source: missing required fields give 400;
a procedure code that does not detect as a crown gives 400;
`workOrderExistsForProcedure` gives 409 and the store untouched; then
`createWorkOrder` runs with status `'pending'` and the shade
`crownSpecs?.shade || procedure.shade || 'A2'`. -/
def postWorkOrders (now : Nat) (req : CreateRequest) (s : WorkOrderStore) :
    WorkOrderStore × Nat × Option CrownWorkOrderRecord :=
  match req.openDentalPatientId, req.openDentalProcedureId,
        req.patient, req.procedure with
  | some patId, some procId, some patient, some procedure =>
      if !(idTruthy (some patId)) || !(idTruthy (some procId)) then (s, 400, none)
      else if !(detectCrownProcedure procedure.code).isCrown then (s, 400, none)
      else if workOrderExistsForProcedure procId s then (s, 409, none)
      else
        let (s', created) := createWorkOrder now
          { openDentalPatientId := patId
            openDentalProcedureId := procId
            patientName := patient.name
            procedureCode := procedure.code
            toothNumber := procedure.toothNumber
            shade := (req.crownSpecsShade.orElse (fun _ => procedure.shade)).getD "A2"
            assignedTo := req.assignedTo
            priority := req.priority
            specialInstructions := req.specialInstructions
            dueDate := req.dueDate
            status := some .pending } s
        match created with
        | some r => (s', 201, some r)
        | none => (s', 500, none)
  | _, _, _, _ => (s, 400, none)

/-! ## Command interpreter (`src/services/aiCommands.ts`,
`AICommandExecutor`) -/

/-- The closed intent set of the parse prompt. -/
inductive CommandIntent
  | create_lab_slip
  | list_lab_slips
  | get_status
  | update_status
  | resend_email
  | unknown
deriving DecidableEq, Repr

/-- The parameters the handlers read.  Each field stands for the
parameter and its snake/camel-case alternates, which the handlers merge
with `||`. -/
structure CommandParams where
  lab_slip_id : Option Nat := none
  status : Option WorkOrderStatus := none
  notes : Option String := none
  patient_id : Option Int := none
  assigned_to : Option String := none
  limit : Option Nat := none
deriving DecidableEq, Repr

/-- The `ParsedCommand` of `labSlip.ts`: intent + parameters + confidence
(a JavaScript number, embedded as a rational) + the original text. -/
structure ParsedCommand where
  intent : CommandIntent
  parameters : CommandParams
  confidence : ℚ
  originalText : String
deriving DecidableEq, Repr

/-- The fields of the JSON object Claude is asked to produce; each may be
missing (`parsed.intent || 'unknown'`, `parsed.parameters || { }`,
`parsed.confidence || 0`). -/
structure ParsedJson where
  intent : Option CommandIntent := none
  parameters : Option CommandParams := none
  confidence : Option ℚ := none

/-- The first content block of the Anthropic reply: a text block carrying
the outcome of `JSON.parse` on its text (`none` when the text is not
parseable JSON), or a non-text block. -/
inductive ClaudeContent
  | text (jsonParse : Option ParsedJson)
  | other

/-- The outcome of the `messages.create` call: a reply, or a thrown
error (network failure, bad request, …). -/
inductive ApiOutcome
  | ok (content : ClaudeContent)
  | apiError (msg : String)

/-- The fallback `ParsedCommand` the `catch` of `parseCommand` returns:
intent `unknown`, no parameters, confidence 0. -/
def unknownParse (userInput : String) : ParsedCommand :=
  { intent := .unknown, parameters := {}, confidence := 0, originalText := userInput }

/-- The `try` block of `AICommandExecutor.parseCommand`: a thrown API
error propagates; a non-text first block throws
(`'Unexpected response type from Claude'`); text that `JSON.parse`
rejects throws (`'Invalid JSON response from AI'`); otherwise each field
is read with its falsy-default. -/
def parseCommandTry (userInput : String) (api : ApiOutcome) :
    Except String ParsedCommand :=
  match api with
  | .apiError e => .error e
  | .ok .other => .error "Unexpected response type from Claude"
  | .ok (.text none) => .error "Invalid JSON response from AI"
  | .ok (.text (some j)) =>
      .ok { intent := j.intent.getD .unknown
            parameters := j.parameters.getD {}
            confidence := j.confidence.getD 0
            originalText := userInput }

/-- The `AICommandExecutor.parseCommand`: the whole body sits in a
`try`/`catch` whose `catch` returns the `unknown`, confidence-0 result —
the function never throws to its caller. -/
def parseCommand (userInput : String) (api : ApiOutcome) : ParsedCommand :=
  match parseCommandTry userInput api with
  | .ok r => r
  | .error _ => unknownParse userInput

/-- The `CommandExecutionResult` of `labSlip.ts`; `data` carries the records
a handler returns. -/
structure CommandExecutionResult where
  success : Bool
  message : String
  error : Option String := none
  data : Option (List CrownWorkOrderRecord) := none
deriving DecidableEq, Repr

/-- A call into the store adapter / lifecycle controller, recorded so
that "no store call happens" is a statement about the embedding. -/
inductive StoreCall
  | list (f : WorkOrderFilters) (limit : Nat)
  | getById (id : Nat)
  | updateStatus (id : Nat) (st : WorkOrderStatus) (notes : Option String)
deriving DecidableEq, Repr

/-- The `handleListLabSlips`: normalizes the parameters into filters and
lists, read-only. -/
def handleListLabSlips (p : CommandParams) (s : WorkOrderStore) :
    CommandExecutionResult × List StoreCall :=
  let filters : WorkOrderFilters :=
    { status := p.status.map .one
      patientId := p.patient_id
      assignedTo := p.assigned_to }
  let limit := p.limit.getD 50
  let data := listWorkOrders filters limit s
  ({ success := true
     data := some data
     message := "Found " ++ toString data.length ++ " lab slip(s)" },
   [.list filters limit])

/-- The `handleGetStatus`: requires `lab_slip_id`, read-only lookup. -/
def handleGetStatus (p : CommandParams) (s : WorkOrderStore) :
    CommandExecutionResult × List StoreCall :=
  match p.lab_slip_id with
  | none =>
      ({ success := false
         message := "Lab slip ID is required"
         error := some "Missing lab_slip_id parameter" }, [])
  | some id =>
      match getWorkOrderById id s with
      | none =>
          ({ success := false
             message := "Lab slip not found"
             error := some "Not found" }, [.getById id])
      | some r =>
          ({ success := true
             data := some [r]
             message := "Lab slip status: " ++ statusString r.status }, [.getById id])

/-- The `handleUpdateStatus`: requires `lab_slip_id` and `status`, then
delegates to `updateWorkOrderStatus` (the one mutating path). -/
def handleUpdateStatus (now : Nat) (p : CommandParams) (s : WorkOrderStore) :
    WorkOrderStore × CommandExecutionResult × List StoreCall :=
  match p.lab_slip_id, p.status with
  | some id, some st =>
      let (s', updated) := updateWorkOrderStatus now id st p.notes s
      match updated with
      | none =>
          (s', { success := false
                 message := "Failed to update lab slip status"
                 error := some "Update failed" }, [.updateStatus id st p.notes])
      | some r =>
          (s', { success := true
                 data := some [r]
                 message := "Lab slip status updated to: " ++ statusString st },
           [.updateStatus id st p.notes])
  | _, _ =>
      (s, { success := false
            message := "Lab slip ID and status are required"
            error := some "Missing required parameters" }, [])

/-- The clarification result of the confidence gate
(`'Could not understand command'`). -/
def lowConfidenceResult : CommandExecutionResult :=
  { success := false
    message := "Could not understand command"
    error := some "Low confidence in command interpretation" }

/-- The `switch (parsed.intent)` of `executeCommand`: routing once the
confidence gate has passed.  `create_lab_slip` and `resend_email` return
fixed not-supported results without touching the store; `unknown` falls
to the default arm. -/
def dispatchByIntent (now : Nat) (parsed : ParsedCommand) (s : WorkOrderStore) :
    WorkOrderStore × CommandExecutionResult × List StoreCall :=
  match parsed.intent with
  | .list_lab_slips =>
      let (r, calls) := handleListLabSlips parsed.parameters s
      (s, r, calls)
  | .get_status =>
      let (r, calls) := handleGetStatus parsed.parameters s
      (s, r, calls)
  | .update_status => handleUpdateStatus now parsed.parameters s
  | .create_lab_slip =>
      (s, { success := false
            message := "Lab slip creation requires structured data. Please use the API endpoint."
            error := some "Not supported via natural language" }, [])
  | .resend_email =>
      (s, { success := false
            message := "Email resending is not yet implemented"
            error := some "Feature pending" }, [])
  | .unknown =>
      (s, { success := false
            message := "Unknown command"
            error := some "Could not determine intent" }, [])

/-- The `AICommandExecutor.executeCommand` after the parse stage (the parse
result is the argument; the stage-3 response phrasing is a further
language-model call outside the dispatch logic):
`if (parsed.confidence < 0.6)` short-circuits with the clarification
result, the store untouched and no store call; otherwise the intent is
dispatched. -/
def executeCommand (now : Nat) (parsed : ParsedCommand) (s : WorkOrderStore) :
    WorkOrderStore × CommandExecutionResult × List StoreCall :=
  if parsed.confidence < 3/5 then (s, lowConfidenceResult, [])
  else dispatchByIntent now parsed s

/-! ## Theorems -/

/-- Every crown code of the table maps to a non-empty material. -/
theorem recommendMaterial_nonempty (n : String)
    (h : crownProcedureCodes.contains n = true) :
    recommendMaterialForCode n ≠ "" := by
  have hm : n ∈ crownProcedureCodes := by simpa using h
  fin_cases hm <;> decide

/-- C5: for every procedure code string whose trimmed, upper-cased form is
one of the four known crown codes, the classifier returns `isCrown =
true`, confidence 1 and the (non-empty) material of the fixed
code-to-material table; for every other code it returns `isCrown =
false`, confidence 0 and no material. -/
theorem detect_crown_classifier (code : String) :
    ((detectCrownProcedure code).isCrown
        = crownProcedureCodes.contains (jsToUpper (jsTrim code))) ∧
    ((detectCrownProcedure code).confidence
        = if crownProcedureCodes.contains (jsToUpper (jsTrim code)) then 1 else 0) ∧
    ((detectCrownProcedure code).recommendedMaterial
        = if crownProcedureCodes.contains (jsToUpper (jsTrim code))
          then some (recommendMaterialForCode (jsToUpper (jsTrim code))) else none) ∧
    (∀ m ∈ (detectCrownProcedure code).recommendedMaterial, m ≠ "") := by
  unfold detectCrownProcedure detectCrownProcedureWith DEFAULT_DETECTION_CONFIG
    isCrownProcedure
  by_cases h : jsToUpper (jsTrim code) ∈ crownProcedureCodes
  · have hc : crownProcedureCodes.contains (jsToUpper (jsTrim code)) = true := by simpa using h
    have hm := recommendMaterial_nonempty _ hc
    simp [h, hc, hm]
  · have hc : crownProcedureCodes.contains (jsToUpper (jsTrim code)) = false := by simpa using h
    simp [h, hc]

/-- C7: whenever the parse stage's language-model call throws, returns a
non-text block, or returns text that is not parseable JSON,
`parseCommand` returns the intent-`unknown`, confidence-0 result instead
of propagating the exception (being a total Lean function, it cannot
throw). -/
theorem parse_command_fail_soft (input e : String) :
    parseCommand input (.apiError e) = unknownParse input ∧
    parseCommand input (.ok .other) = unknownParse input ∧
    parseCommand input (.ok (.text none)) = unknownParse input ∧
    (unknownParse input).intent = .unknown ∧
    (unknownParse input).confidence = 0 :=
  ⟨rfl, rfl, rfl, rfl, rfl⟩

/-- Do the notes mention an urgent keyword (the claim's phrasing, without
the source's JavaScript truthiness guard on `notes`)? -/
def notesMentionUrgent : Option String → Bool
  | some n => urgentKeywords.any (fun k => strContains (jsToLower n) k)
  | none => false

/-- The priority rules as C8 states them: the urgent-keyword scan first,
then the whole-day difference thresholds (≤ 1 day `asap`, ≤ 3 days
`urgent`, otherwise the configured default), and the configured default
when no appointment date is supplied. -/
def determinePrioritySpec (config : ProcedureDetectionConfig) (now : Int)
    (appointmentDate : Option Int) (notes : Option String) : Priority :=
  if notesMentionUrgent notes then .asap
  else
    match appointmentDate with
    | some appt =>
        if jsCeilDiv (appt - now) msPerDay ≤ 1 then .asap
        else if jsCeilDiv (appt - now) msPerDay ≤ 3 then .urgent
        else config.defaultPriority
    | none => config.defaultPriority

/-- C8: `determinePriority` implements exactly the claimed rules — the
keyword scan takes precedence over the date logic, the day thresholds are
1 and 3 on the ceiling of the millisecond difference divided by one day,
and both the no-appointment case and the beyond-3-days case fall through
to the configured default (`'routine'` in `DEFAULT_DETECTION_CONFIG`).
The truthiness guard `if (notes)` of the source is absorbed: an empty
string contains no keyword. -/
theorem determine_priority_rules (config : ProcedureDetectionConfig)
    (now procedureDate : Int) (appt : Option Int) (notes : Option String) :
    determinePriority config now procedureDate appt notes
      = determinePrioritySpec config now appt notes := by
  unfold determinePriority determinePrioritySpec notesMentionUrgent
  cases notes with
  | none => rfl
  | some n =>
      by_cases hn : n = ""
      · subst hn
        have h0 : urgentKeywords.any (fun k => strContains (jsToLower "") k) = false := by
          decide
        simp [h0]
      · simp [bne_iff_ne, hn]

/-- The ordered first-match-wins composition of the four shade rules. -/
def firstShadeMatch (notes : String) : Option String :=
  (matchShadeRule1 notes).orElse fun _ =>
    (matchShadeRule2 notes).orElse fun _ =>
      (matchShadeRule3 notes).orElse fun _ => matchShadeRule4 notes

/-- C9: `extractShade` returns the uppercased capture of the first rule
that matches, in the fixed order label-prefixed (rule 1), label-suffixed
(rule 2), color-prefixed (rule 3), bare token (rule 4); on text no rule
matches (no shade mention) it returns the fixed default `"A2"`. -/
theorem extract_shade_first_rule_wins (notes : String) :
    extractShade notes
      = (match firstShadeMatch notes with
         | some m => jsToUpper m
         | none => "A2") := by
  unfold extractShade firstShadeMatch
  cases h1 : matchShadeRule1 notes <;>
    cases h2 : matchShadeRule2 notes <;>
      cases h3 : matchShadeRule3 notes <;>
        cases h4 : matchShadeRule4 notes <;>
          simp [Option.orElse]

/-- C10: `extractToothNumber` is total and returns, for the trimmed
`String(input)`: the trimmed string as is when JavaScript `parseInt`
yields an integer in `1..32`; otherwise the uppercased string when it is
a single letter `A`–`T` in either case; otherwise the trimmed string
unchanged. -/
theorem extract_tooth_number_cases (t : String ⊕ Int) :
    ((∃ n, jsParseInt (jsTrim (toothInputString t)) = some n ∧ 1 ≤ n ∧ n ≤ 32) →
        extractToothNumber t = jsTrim (toothInputString t)) ∧
    ((∀ n, jsParseInt (jsTrim (toothInputString t)) = some n → ¬(1 ≤ n ∧ n ≤ 32)) →
        isPrimaryToothLetter (jsTrim (toothInputString t)) = true →
        extractToothNumber t = jsToUpper (jsTrim (toothInputString t))) ∧
    ((∀ n, jsParseInt (jsTrim (toothInputString t)) = some n → ¬(1 ≤ n ∧ n ≤ 32)) →
        isPrimaryToothLetter (jsTrim (toothInputString t)) = false →
        extractToothNumber t = jsTrim (toothInputString t)) := by
  refine ⟨fun he => ?_, fun hno hl => ?_, fun hno hl => ?_⟩
  · obtain ⟨n, hn, hr1, hr2⟩ := he
    simp [extractToothNumber, hn, hr1, hr2]
  · cases hp : jsParseInt (jsTrim (toothInputString t)) with
    | none => simp [extractToothNumber, hp, hl]
    | some n =>
        have hr := hno n hp
        simp [extractToothNumber, hp, hr, hl]
  · cases hp : jsParseInt (jsTrim (toothInputString t)) with
    | none => simp [extractToothNumber, hp, hl]
    | some n =>
        have hr := hno n hp
        simp [extractToothNumber, hp, hr, hl]

/-- C4: the confidence gate of `executeCommand` — with confidence
strictly below `0.6` the store is untouched, no store-adapter or
lifecycle call is recorded and the clarification result is returned; with
confidence at least `0.6` (the boundary `0.6` included, and `0.59`
excluded, as the last two conjuncts state at those exact values) the
intent is dispatched through the intent switch. -/
theorem confidence_gate_dispatch (now : Nat) (parsed : ParsedCommand)
    (s : WorkOrderStore) :
    (parsed.confidence < 3/5 →
        executeCommand now parsed s = (s, lowConfidenceResult, ([] : List StoreCall))) ∧
    (3/5 ≤ parsed.confidence →
        executeCommand now parsed s = dispatchByIntent now parsed s) ∧
    (executeCommand now { parsed with confidence := 3/5 } s
        = dispatchByIntent now { parsed with confidence := 3/5 } s) ∧
    (executeCommand now { parsed with confidence := 59/100 } s
        = (s, lowConfidenceResult, ([] : List StoreCall))) := by
  refine ⟨fun h => ?_, fun h => ?_, ?_, ?_⟩
  · simp [executeCommand, h]
  · simp [executeCommand, not_lt.mpr h]
  · simp [executeCommand]
  · have h59 : (59 : ℚ)/100 < 3/5 := by norm_num
    simp [executeCommand, h59]

/-! ### Concrete stores for the closed evaluations -/

/-- A stored work order: id 0, status `pending`, empty history, no
completion stamp. -/
def exRecord : CrownWorkOrderRecord :=
  { id := 0
    lab_id := none
    opendental_patient_id := 77
    opendental_procedure_id := 501
    patient_name := "John Doe"
    procedure_code := "D2740"
    tooth_number := "14"
    shade := "A2"
    assignedTo := "Lab Tech"
    priority := .routine
    status := .pending
    lab_notes := none
    pdf_url := none
    pdf_storage_path := none
    created_at := 0
    updated_at := 0
    completed_at := none
    statusHistory := [] }

/-- The one-row store holding `exRecord`. -/
def exStore : WorkOrderStore := { rows := [exRecord], nextId := 1 }

/-- C1 (code-bug evidence): a status update never touches the status
history.  `applyUpdates` preserves `statusHistory` on any row and any
update parameters, and on the concrete one-row store the
`updateWorkOrderStatus` call succeeds (the returned row has the new
status) while the history length stays 0 — the claimed append to 1 does
not happen; no code path under `WorkOrderQueries` writes a history entry
and the `lab_slips` schema has no history column. -/
theorem update_status_appends_no_history (now : Nat) (p : UpdateWorkOrderParams)
    (r : CrownWorkOrderRecord) :
    ((applyUpdates now p r).statusHistory = r.statusHistory) ∧
    ((updateWorkOrderStatus 100 0 .scanned none exStore).2.map
        (fun q => q.statusHistory.length) = some 0) ∧
    ((updateWorkOrderStatus 100 0 .scanned none exStore).1.rows.map
        (fun q => q.statusHistory.length) = [0]) ∧
    ((updateWorkOrderStatus 100 0 .scanned none exStore).2.map
        (fun q => q.status) = some .scanned) :=
  ⟨rfl, by decide, by decide, by decide⟩

/-- The creation parameters of the C2 trace. -/
def c2CreateParams : CreateWorkOrderParams :=
  { openDentalPatientId := 77
    openDentalProcedureId := 501
    patientName := "John Doe"
    procedureCode := "D2740"
    toothNumber := "14"
    shade := "A2"
    assignedTo := "Lab Tech"
    priority := .routine }

/-- A reachable state: create (status `pending`), update to `seated` at
t = 10, update back to `pending` at t = 20. -/
def c2State : WorkOrderStore :=
  (updateWorkOrderStatus 20 0 .pending none
    (updateWorkOrderStatus 10 0 .seated none
      (createWorkOrder 0 c2CreateParams emptyStore).1).1).1

/-- C2 (counterexample): in the state reached by create → `seated` →
`pending`, the order's status is `pending` while `completed_at` is still
the `seated`-time stamp `10` — `completedAt` non-null is not equivalent
to `status = seated`. -/
theorem completed_at_iff_seated_fails :
    (c2State.rows.map (fun r => (r.status, r.completed_at))
        = [(.pending, some 10)]) ∧
    (c2State.rows.map (fun r => decide ((r.completed_at ≠ none) ↔ r.status = .seated))
        = [false]) :=
  ⟨by decide, by decide⟩

/-- Apply a sequence of `(now, status, notes)` operations through
`updateWorkOrderStatus` against a fixed order id. -/
def runStatusUpdates (id : Nat) (ops : List (Nat × WorkOrderStatus × Option String))
    (s : WorkOrderStore) : WorkOrderStore :=
  ops.foldl (fun st op => (updateWorkOrderStatus op.1 id op.2.1 op.2.2 st).1) s

/-- The effect of one `updateWorkOrderStatus` operation on the row it
resolves. -/
def statusUpdateOnRecord (op : Nat × WorkOrderStatus × Option String)
    (r : CrownWorkOrderRecord) : CrownWorkOrderRecord :=
  applyUpdates op.1
    { id := r.id
      status := some op.2.1
      labNotes := match op.2.2 with
        | some n => if n = "" then none else some n
        | none => none
      completedAt := if op.2.1 = .seated then some op.1 else none } r

/-- On a one-row store whose row has id 0, a run of status updates
against id 0 folds `statusUpdateOnRecord` over the row. -/
theorem runStatusUpdates_single (ops : List (Nat × WorkOrderStatus × Option String))
    (r : CrownWorkOrderRecord) (n : Nat) (h : r.id = 0) :
    runStatusUpdates 0 ops { rows := [r], nextId := n }
      = { rows := [ops.foldl (fun q op => statusUpdateOnRecord op q) r], nextId := n } := by
  induction ops generalizing r with
  | nil => simp [runStatusUpdates]
  | cons op rest ih =>
      have hstep : (updateWorkOrderStatus op.1 0 op.2.1 op.2.2
            { rows := [r], nextId := n }).1
          = { rows := [statusUpdateOnRecord op r], nextId := n } := by
        simp [updateWorkOrderStatus, updateWorkOrder, statusUpdateOnRecord, h]
      have hid : (statusUpdateOnRecord op r).id = 0 := h
      calc runStatusUpdates 0 (op :: rest) { rows := [r], nextId := n }
          = runStatusUpdates 0 rest ((updateWorkOrderStatus op.1 0 op.2.1 op.2.2
              { rows := [r], nextId := n }).1) := by
            simp [runStatusUpdates]
        _ = runStatusUpdates 0 rest { rows := [statusUpdateOnRecord op r], nextId := n } := by
            rw [hstep]
        _ = { rows := [rest.foldl (fun q op => statusUpdateOnRecord op q)
                (statusUpdateOnRecord op r)], nextId := n } := ih _ hid
        _ = _ := by simp

/-- Folding status updates over a row: `completed_at` ends non-null
exactly when it started non-null or some update was to `seated`. -/
theorem foldl_statusUpdate_completed
    (ops : List (Nat × WorkOrderStatus × Option String)) (r : CrownWorkOrderRecord) :
    ((ops.foldl (fun q op => statusUpdateOnRecord op q) r).completed_at).isSome
      = (r.completed_at.isSome || ops.any (fun op => op.2.1 == .seated)) := by
  induction ops generalizing r with
  | nil => simp
  | cons op rest ih =>
      rw [List.foldl_cons, ih]
      by_cases hs : op.2.1 = .seated
      · simp [statusUpdateOnRecord, applyUpdates, hs]
      · have hb : (op.2.1 == WorkOrderStatus.seated) = false := by
          simpa using hs
        simp [statusUpdateOnRecord, applyUpdates, hs, hb]

/-- C2 (amended): starting from `createWorkOrder` (which stores no
completion stamp) and applying any sequence of `updateWorkOrderStatus`
operations to the created order, `completed_at` is non-null exactly when
some operation of the sequence set the status to `'seated'`.  In
particular reaching `seated` stamps it, but the stamp survives later
updates away from `seated`. -/
theorem completed_at_tracks_seated_updates (now : Nat) (p : CreateWorkOrderParams)
    (ops : List (Nat × WorkOrderStatus × Option String)) :
    (runStatusUpdates 0 ops (createWorkOrder now p emptyStore).1).rows.map
        (fun r => r.completed_at.isSome)
      = [ops.any (fun op => op.2.1 == .seated)] := by
  rw [show (createWorkOrder now p emptyStore).1
      = { rows := [((createWorkOrder now p emptyStore).2.getD exRecord)], nextId := 1 }
      from rfl]
  rw [runStatusUpdates_single ops _ 1 rfl]
  simp [foldl_statusUpdate_completed]
  rw [show ((createWorkOrder now p emptyStore).2.getD exRecord).completed_at = none
      from rfl]
  simp

/-- A store holding a row with the given procedure id answers the
duplicate check positively. -/
theorem workOrderExists_of_mem (procId : Int) (s : WorkOrderStore)
    (r : CrownWorkOrderRecord) (hr : r ∈ s.rows)
    (hid : r.opendental_procedure_id = procId) :
    workOrderExistsForProcedure procId s = true := by
  unfold workOrderExistsForProcedure getWorkOrderByProcedureId sortByCreatedDesc
  have hmem : r ∈ s.rows.filter (fun q => q.opendental_procedure_id == procId) := by
    simp [List.mem_filter, hr, hid]
  have hne : s.rows.filter (fun q => q.opendental_procedure_id == procId) ≠ [] :=
    List.ne_nil_of_mem hmem
  cases hcase : ((s.rows.filter (fun q => q.opendental_procedure_id == procId)).mergeSort
      (fun a b => decide (b.created_at ≤ a.created_at))).head? with
  | some q => simp [hcase]
  | none =>
      exfalso
      apply hne
      have hnil := List.head?_eq_none_iff.mp hcase
      have hlen := @List.length_mergeSort CrownWorkOrderRecord
        (fun a b => decide (b.created_at ≤ a.created_at))
        (s.rows.filter (fun q => q.opendental_procedure_id == procId))
      rw [hnil] at hlen
      exact List.eq_nil_of_length_eq_zero hlen.symm

/-- C3: when a work order for the external procedure id is already
stored (created earlier and not deleted), a second `POST /work-orders`
call carrying that procedure id — otherwise valid: ids truthy, payloads
present, a recognized crown code — returns 409 Conflict with no record
created and the store exactly as it was (in particular the first call's
record is unchanged). -/
theorem duplicate_create_conflict (now : Nat) (req : CreateRequest) (s : WorkOrderStore)
    (patId procId : Int) (patient : PatientPayload) (procedure : ProcedurePayload)
    (r : CrownWorkOrderRecord)
    (hpat : req.openDentalPatientId = some patId)
    (hproc : req.openDentalProcedureId = some procId)
    (hpatient : req.patient = some patient)
    (hprocedure : req.procedure = some procedure)
    (hpatT : patId ≠ 0) (hprocT : procId ≠ 0)
    (hcrown : (detectCrownProcedure procedure.code).isCrown = true)
    (hr : r ∈ s.rows)
    (hid : r.opendental_procedure_id = procId) :
    postWorkOrders now req s = (s, 409, none) := by
  have hex := workOrderExists_of_mem procId s r hr hid
  unfold postWorkOrders
  rw [hpat, hproc, hpatient, hprocedure]
  simp [idTruthy, hpatT, hprocT, hcrown, hex]

/-- The patient payload of the C3 witness. -/
def c3Patient : PatientPayload :=
  { name := "John Doe", dateOfBirth := 163036800000 }

/-- The procedure payload of the C3 witness. -/
def c3Procedure : ProcedurePayload :=
  { code := "D2740"
    description := "Crown - porcelain/ceramic substrate"
    toothNumber := "14" }

/-- The C3 witness request: same external procedure id `501` as
`exRecord`. -/
def c3Request : CreateRequest :=
  { openDentalPatientId := some 77
    openDentalProcedureId := some 501
    patient := some c3Patient
    procedure := some c3Procedure }

/-- C3 witness: against the one-row store already holding procedure 501,
the second creation call returns 409 and leaves the store unchanged. -/
theorem duplicate_create_conflict_witness :
    postWorkOrders 5 c3Request exStore = (exStore, 409, none) :=
  duplicate_create_conflict 5 c3Request exStore 77 501 c3Patient c3Procedure exRecord
    rfl rfl rfl rfl (by decide) (by decide) (by decide)
    (by simp [exStore]) (by decide)

/-- The live internal record set: rows with `lab_id` null, which is what
the stats query ranges over. -/
def internalRows (s : WorkOrderStore) : List CrownWorkOrderRecord :=
  s.rows.filter (fun r => r.lab_id.isNone)

/-- The five status buckets (pending / in-progress / ready / seated /
cancelled-or-on-hold) partition any record list: they are mutually
exclusive and exhaustive by status. -/
theorem status_buckets_partition (l : List CrownWorkOrderRecord) :
    (l.filter (fun r => r.status == .pending)).length
      + (l.filter (fun r => inProgressStatuses.contains r.status)).length
      + (l.filter (fun r => r.status == .ready)).length
      + (l.filter (fun r => r.status == .seated)).length
      + (l.filter (fun r => r.status == .cancelled || r.status == .on_hold)).length
      = l.length := by
  induction l with
  | nil => rfl
  | cons r t ih =>
      cases hs : r.status <;>
        simp +decide only [List.filter_cons, hs, List.length_cons, if_true, if_false] <;>
          omega

/-- The empty filter object matches every row. -/
theorem matchesFilters_empty (r : CrownWorkOrderRecord) :
    matchesFilters {} r = true := rfl

/-- Filtering with the empty filter object keeps every row. -/
theorem filter_matchesFilters_empty (l : List CrownWorkOrderRecord) :
    l.filter (matchesFilters {}) = l :=
  List.filter_eq_self.mpr (fun r _ => matchesFilters_empty r)

/-- A set of 1001 internal work orders: one more than the cap of the
stats query. -/
def bigStore : WorkOrderStore :=
  { rows := (List.range 1001).map (fun i => { exRecord with id := i })
    nextId := 1001 }

set_option maxRecDepth 4000 in
/-- Every row of `bigStore` is internal. -/
theorem bigStore_filter_lab :
    bigStore.rows.filter (fun r => r.lab_id.isNone) = bigStore.rows :=
  List.filter_eq_self.mpr (fun r hr => by
    have hr' : r ∈ (List.range 1001).map (fun i => { exRecord with id := i }) := hr
    obtain ⟨i, _, rfl⟩ := List.mem_map.mp hr'
    rfl)

/-- C6 (counterexample): on a live set of 1001 internal records,
`getWorkOrderStats` reports `total = 1000` — the stats query fetches
`listWorkOrders({}, 1000)`, so the recomputation covers at most the 1000
newest records, not the full live set. -/
theorem stats_total_capped_at_1000 :
    (getWorkOrderStats bigStore).total = 1000 ∧ bigStore.rows.length = 1001 := by
  have hrows : bigStore.rows.length = 1001 := by simp [bigStore]
  refine ⟨?_, hrows⟩
  show (listWorkOrders {} 1000 bigStore).length = 1000
  unfold listWorkOrders sortByCreatedDesc
  rw [bigStore_filter_lab, filter_matchesFilters_empty,
    List.length_take, List.length_mergeSort, hrows]
  omega

/-- The sorted capped list the stats query works on equals the sorted
full internal set whenever at most 1000 internal records exist. -/
theorem listWorkOrders_all_of_le (s : WorkOrderStore)
    (h : (internalRows s).length ≤ 1000) :
    listWorkOrders {} 1000 s
      = (internalRows s).mergeSort (fun a b => decide (b.created_at ≤ a.created_at)) := by
  unfold listWorkOrders sortByCreatedDesc internalRows
  rw [filter_matchesFilters_empty]
  apply List.take_of_length_le
  rw [List.length_mergeSort]
  exact h

/-- C6 (amended): `getWorkOrderStats` recomputes over the live internal
set on each call whenever that set holds at most 1000 records — `total`
counts every record regardless of bucket, `pending` / `inProgress` /
`ready` / `completed` count exactly the claimed statuses, and the four
buckets are mutually exclusive: together with the cancelled/on-hold rest
they partition the total. -/
theorem stats_recompute_full_set (s : WorkOrderStore)
    (h : (internalRows s).length ≤ 1000) :
    ((getWorkOrderStats s).total = (internalRows s).length) ∧
    ((getWorkOrderStats s).pending
        = ((internalRows s).filter (fun r => r.status == .pending)).length) ∧
    ((getWorkOrderStats s).inProgress
        = ((internalRows s).filter
            (fun r => inProgressStatuses.contains r.status)).length) ∧
    ((getWorkOrderStats s).ready
        = ((internalRows s).filter (fun r => r.status == .ready)).length) ∧
    ((getWorkOrderStats s).completed
        = ((internalRows s).filter (fun r => r.status == .seated)).length) ∧
    ((getWorkOrderStats s).total
        = (getWorkOrderStats s).pending + (getWorkOrderStats s).inProgress
          + (getWorkOrderStats s).ready + (getWorkOrderStats s).completed
          + ((internalRows s).filter
              (fun r => r.status == .cancelled || r.status == .on_hold)).length) := by
  have hall := listWorkOrders_all_of_le s h
  have hperm : (listWorkOrders {} 1000 s).Perm (internalRows s) := by
    rw [hall]; exact List.mergeSort_perm _ _
  have hlen : ∀ p : CrownWorkOrderRecord → Bool,
      ((listWorkOrders {} 1000 s).filter p).length
        = ((internalRows s).filter p).length :=
    fun p => (hperm.filter p).length_eq
  have htot : (listWorkOrders {} 1000 s).length = (internalRows s).length :=
    hperm.length_eq
  simp only [getWorkOrderStats]
  refine ⟨htot, hlen _, hlen _, hlen _, hlen _, ?_⟩
  rw [htot, hlen _, hlen _, hlen _, hlen _,
    ← status_buckets_partition (internalRows s)]

/-- C6 witness: the one-row store is under the cap; its stats total
equals its live internal count. -/
theorem stats_recompute_witness :
    (internalRows exStore).length ≤ 1000 ∧
    (getWorkOrderStats exStore).total = (internalRows exStore).length :=
  ⟨by decide, (stats_recompute_full_set exStore (by decide)).1⟩

end DentalAI
